import Mathlib

/-!
Shallow embedding of `src/app.py` (family finance recorder): the category
taxonomy, member set, default-category rule, store read/append path, and the
monthly report computation.  Monetary amounts are modelled as rationals
(`ℚ`); store cells for dates are either raw strings (as returned by the
store) or parsed calendar dates (after the `to_datetime` conversion).
-/

/-- A calendar date, no time component. -/
structure Date where
  year : ℕ
  month : ℕ
  day : ℕ
deriving DecidableEq, Repr

/-- A date cell of the 日期 column: a raw string as stored, or a parsed
datetime after the column-wide `to_datetime` conversion. -/
inductive DateCell where
  | str (s : String)
  | dt (d : Date)
deriving DecidableEq, Repr

/-- Split a character list at the dashes of an ISO date string. -/
def splitOnDash (cs : List Char) : List (List Char) :=
  match cs with
  | [] => [[]]
  | c :: rest =>
    let r := splitOnDash rest
    if c = '-' then [] :: r
    else
      match r with
      | [] => [[c]]
      | h :: t => (c :: h) :: t

/-- Decimal value of a digit string. -/
def natOfDigits (cs : List Char) : ℕ :=
  cs.foldl (fun n c => 10 * n + (c.toNat - 48)) 0

/-- Parse an ISO `YYYY-MM-DD` string (the format the app writes). -/
def parseDate (s : String) : Date :=
  match (splitOnDash s.toList).map natOfDigits with
  | [y, m, d] => ⟨y, m, d⟩
  | _ => ⟨0, 0, 0⟩

/-- Convert a date cell as `pd.to_datetime` does on the 日期 column. -/
def toDatetime (c : DateCell) : DateCell :=
  match c with
  | .str s => .dt (parseDate s)
  | .dt d => .dt d

/-- Month number of a date cell (`.dt.month` after conversion). -/
def monthNum (c : DateCell) : ℕ :=
  match c with
  | .str s => (parseDate s).month
  | .dt d => d.month

/-- One stored row: the 7-column shape 日期, 成員, 收支類型, 主類別, 細項,
金額, 備註 (src/app.py line 38 and the entry list of line 98). -/
structure Row where
  «日期» : DateCell
  «成員» : String
  «收支類型» : String
  «主類別» : String
  «細項» : String
  «金額» : ℚ
  «備註» : String
deriving DecidableEq, Repr

/-- The fixed 7-column header (src/app.py line 38). -/
def COLUMNS7 : List String := ["日期", "成員", "收支類型", "主類別", "細項", "金額", "備註"]

/-- The in-memory table built from the store rows. -/
structure DataFrame where
  columns : List String
  rows : List Row
deriving DecidableEq, Repr

/-- `load_df` (src/app.py lines 35-39): no data gives an empty frame with the
fixed columns, otherwise the frame holds exactly the raw rows. -/
def load_df (data : List Row) : DataFrame :=
  if data.isEmpty then ⟨COLUMNS7, []⟩ else ⟨COLUMNS7, data⟩

/-- The fixed member set (src/app.py line 47). -/
def MEMBERS : List String := ["Connie", "Kam", "曦晴", "曦朗"]

/-- The fixed category taxonomy (src/app.py lines 48-60): an ordered mapping
kind → ordered (main-category → sub-categories). -/
def CATEGORIES : List (String × List (String × List String)) :=
  [("收入",
     [("薪金", ["每月薪金"]),
      ("其他", ["花紅", "投資回報", "其他收入"])]),
   ("支出",
     [("家庭支出", ["供樓", "管理費", "水費", "電費", "煤氣費", "電話費", "上網費",
                   "串流平台", "差餉", "外傭薪金", "家庭日常用品"]),
      ("個人支出", ["早午晚三餐", "購物", "娛樂", "個人其他"]),
      ("小朋友支出", ["學費", "興趣班", "醫療", "其他費用"]),
      ("交通費用", ["車費", "車充電費用", "泊車", "交通其他"]),
      ("儲蓄與保險", ["存款", "保險", "旅遊基金"])])]

/-- Main categories of a kind (`list(CATEGORIES[tx_type].keys())`, line 85);
an unknown kind yields the empty sequence (§4.1 of the design). -/
def mainCategories (kind : String) : List String :=
  (((CATEGORIES.find? (fun p => p.1 == kind)).map (fun p => p.2)).getD []).map
    (fun p => p.1)

/-- Sub-categories of a main category (`CATEGORIES[tx_type][main_cat]`,
line 91); unknown keys yield the empty sequence. -/
def subCategories (kind mainCat : String) : List String :=
  (((((CATEGORIES.find? (fun p => p.1 == kind)).map (fun p => p.2)).getD
      []).find? (fun p => p.1 == mainCat)).map (fun p => p.2)).getD []

/-- Modelled from the spec: the §4.1 taxonomy validity contract
`isValid(kind, mainCategory, subCategory)`; the source enforces the same
triples implicitly by populating its selection widgets from `CATEGORIES`. -/
def isValid (kind mainCat subCat : String) : Bool :=
  (subCategories kind mainCat).contains subCat

/-- Default main-category index (src/app.py lines 85-88): `default_idx = 0`,
replaced by the index of 小朋友支出 when the kind is 支出, the member is one
of the two children, and 小朋友支出 is among the available mains. -/
def default_idx (tx_type member : String) : ℕ :=
  let available := mainCategories tx_type
  if tx_type == "支出" && (["曦晴", "曦朗"] : List String).contains member &&
      available.contains "小朋友支出" then
    available.indexOf "小朋友支出"
  else 0

/-- A grouped-breakdown row of the 詳細列表 summary table (line 142). -/
structure BRow where
  «主類別» : String
  «細項» : String
  «成員» : String
  «金額» : ℚ
deriving DecidableEq, Repr

/-- The grouping key (主類別, 細項, 成員) of line 142. -/
def gKey (r : Row) : String × String × String := (r.«主類別», r.«細項», r.«成員»)

/-- Sum of 金額 over the rows of one group (`groupby(...)["金額"].sum()`). -/
def groupAmt (rows : List Row) (k : String × String × String) : ℚ :=
  ((rows.filter (fun r => gKey r == k)).map (fun r => r.«金額»)).sum

/-- The monthly report the 報表 tab computes (lines 122-143). -/
structure Report where
  month : ℕ
  totalIncome : ℚ
  totalExpense : ℚ
  balance : ℚ
  summary : List BRow
deriving DecidableEq, Repr

/-- Date-column conversion `df["日期"] = pd.to_datetime(df["日期"])`
(line 118): the frame's 日期 cells are replaced in place. -/
def normalizeDates (df : DataFrame) : DataFrame :=
  ⟨df.columns, df.rows.map (fun r => { r with «日期» := toDatetime r.«日期» })⟩

/-- Month filter `m_df = df[df["日期"].dt.month == selected_month]`
(line 122), on a frame whose date column is already converted. -/
def monthRows (df : DataFrame) (m : ℕ) : List Row :=
  df.rows.filter (fun r => monthNum r.«日期» == m)

/-- `inc` (line 127): sum of 金額 over the month's 收入 rows. -/
def totalIncome (df : DataFrame) (m : ℕ) : ℚ :=
  (((monthRows df m).filter (fun r => r.«收支類型» == "收入")).map
    (fun r => r.«金額»)).sum

/-- `exp` (line 128): sum of 金額 over the month's 支出 rows. -/
def totalExpense (df : DataFrame) (m : ℕ) : ℚ :=
  (((monthRows df m).filter (fun r => r.«收支類型» == "支出")).map
    (fun r => r.«金額»)).sum

/-- `exp_df = m_df[m_df["收支類型"]=="支出"]` (line 135). -/
def expenseRows (df : DataFrame) (m : ℕ) : List Row :=
  (monthRows df m).filter (fun r => r.«收支類型» == "支出")

/-- The group keys of the summary, in deterministic first-seen order
(`groupby(["主類別", "細項", "成員"])`, line 142). -/
def breakdownKeys (rows : List Row) : List (String × String × String) :=
  (rows.map gKey).dedup

/-- The 詳細列表 summary (line 142): one row per (主類別, 細項, 成員) group
of the month's expense rows, holding the group's summed 金額. -/
def summaryRows (df : DataFrame) (m : ℕ) : List BRow :=
  (breakdownKeys (expenseRows df m)).map
    (fun k => ⟨k.1, k.2.1, k.2.2, groupAmt (expenseRows df m) k⟩)

/-- The whole report of the 報表 tab (lines 127-143): totals, balance
`inc - exp` (line 133), and the grouped summary. -/
def computeReport (df : DataFrame) (m : ℕ) : Report :=
  ⟨m, totalIncome df m, totalExpense df m,
   totalIncome df m - totalExpense df m, summaryRows df m⟩

/-- One report view (lines 114-143): the date column of the frame is
converted in place (line 118), then the report is computed from the
converted frame.  Returns the frame as it stands after the view together
with the report. -/
def view (df : DataFrame) (m : ℕ) : DataFrame × Report :=
  let df2 := normalizeDates df
  (df2, computeReport df2 m)

/-- `date.strftime("%Y-%m-%d")` (line 97). -/
def formatDate (d : Date) : String :=
  (toString d.year) ++ "-" ++
  (if d.month < 10 then "0" ++ toString d.month else toString d.month) ++ "-" ++
  (if d.day < 10 then "0" ++ toString d.day else toString d.day)

/-- The validation failures of §4.3 / §7 of the design. -/
inductive ValidationError where
  | InvalidMember
  | InvalidKind
  | InvalidCategory
  | InvalidAmount
deriving DecidableEq, Repr

/-- Modelled from the spec: `makeTransaction` (§4.3) has no standalone
function in src/app.py — its UI caller (lines 79-98) enforces the same
constraints through widget choices.  Rules checked in order, first failure
wins: member, kind, taxonomy triple, then amount ≥ 0. -/
def makeTransaction (d : Date) (member kind mainCat subCat : String)
    (amount : ℚ) (note : String) : Except ValidationError Row :=
  if member ∈ MEMBERS then
    if kind ∈ (["收入", "支出"] : List String) then
      if isValid kind mainCat subCat then
        if 0 ≤ amount then
          .ok ⟨.dt d, member, kind, mainCat, subCat, amount, note⟩
        else .error .InvalidAmount
      else .error .InvalidCategory
    else .error .InvalidKind
  else .error .InvalidMember

/-- Modelled from the spec: the save path of §7 — a `ValidationError` is
surfaced before any store call, so an invalid entry is never appended; a
valid entry is serialized (date as `YYYY-MM-DD`, line 97) and appended to
the store rows (`save_entry`, lines 41-44 and 98-101). -/
def submit (rows : List Row) (d : Date) (member kind mainCat subCat : String)
    (amount : ℚ) (note : String) :
    List Row × Except ValidationError Unit :=
  match makeTransaction d member kind mainCat subCat amount note with
  | .error e => (rows, .error e)
  | .ok _ =>
      (rows ++ [⟨.str (formatDate d), member, kind, mainCat, subCat, amount, note⟩],
       .ok ())

/-- The taxonomy exactly as the spec's §4.1 table states it, in the spec's
English names, to be compared with the source's `CATEGORIES`. -/
def specTaxonomy : List (String × List (String × List String)) :=
  [("Income",
     [("Salary", ["MonthlySalary"]),
      ("Other", ["Bonus", "InvestmentReturn", "OtherIncome"])]),
   ("Expense",
     [("Household", ["Mortgage", "ManagementFee", "Water", "Electricity", "Gas",
                     "Phone", "Internet", "Streaming", "Rates",
                     "DomesticHelperSalary", "HouseholdSupplies"]),
      ("Personal", ["Meals", "Shopping", "Entertainment", "PersonalOther"]),
      ("Children", ["Tuition", "ActivityClasses", "Medical", "OtherFees"]),
      ("Transport", ["Fare", "EVCharging", "Parking", "TransportOther"]),
      ("SavingsInsurance", ["Deposit", "Insurance", "TravelFund"])])]

/-- The spec's English rendering of each source label (the spec names the
source's Chinese labels in English throughout). -/
def specName (s : String) : String :=
  match s with
  | "Income" => "收入"
  | "Expense" => "支出"
  | "Salary" => "薪金"
  | "Other" => "其他"
  | "MonthlySalary" => "每月薪金"
  | "Bonus" => "花紅"
  | "InvestmentReturn" => "投資回報"
  | "OtherIncome" => "其他收入"
  | "Household" => "家庭支出"
  | "Personal" => "個人支出"
  | "Children" => "小朋友支出"
  | "Transport" => "交通費用"
  | "SavingsInsurance" => "儲蓄與保險"
  | "Mortgage" => "供樓"
  | "ManagementFee" => "管理費"
  | "Water" => "水費"
  | "Electricity" => "電費"
  | "Gas" => "煤氣費"
  | "Phone" => "電話費"
  | "Internet" => "上網費"
  | "Streaming" => "串流平台"
  | "Rates" => "差餉"
  | "DomesticHelperSalary" => "外傭薪金"
  | "HouseholdSupplies" => "家庭日常用品"
  | "Meals" => "早午晚三餐"
  | "Shopping" => "購物"
  | "Entertainment" => "娛樂"
  | "PersonalOther" => "個人其他"
  | "Tuition" => "學費"
  | "ActivityClasses" => "興趣班"
  | "Medical" => "醫療"
  | "OtherFees" => "其他費用"
  | "Fare" => "車費"
  | "EVCharging" => "車充電費用"
  | "Parking" => "泊車"
  | "TransportOther" => "交通其他"
  | "Deposit" => "存款"
  | "Insurance" => "保險"
  | "TravelFund" => "旅遊基金"
  | t => t

/-- `specTaxonomy` with every label rendered into the source's labels. -/
def specTaxonomyRendered : List (String × List (String × List String)) :=
  specTaxonomy.map
    (fun kp => (specName kp.1,
      kp.2.map (fun mp => (specName mp.1, mp.2.map specName))))

/-- Example rows for concrete instances: a 2024 expense, a 2024 income and a
2023 expense in the same calendar month. -/
def exRow1 : Row := ⟨.str "2024-03-05", "Kam", "支出", "家庭支出", "電費", 500, ""⟩

def exRow2 : Row := ⟨.str "2024-03-10", "Connie", "收入", "薪金", "每月薪金", 30000, ""⟩

def exRow3 : Row := ⟨.str "2023-03-02", "Kam", "支出", "個人支出", "購物", 200, ""⟩

/-- A stored row whose 成員 value is outside the member set. -/
def badRow : Row := ⟨.str "2024-03-01", "Unknown", "支出", "家庭支出", "電費", 100, ""⟩

lemma toDatetime_idem (c : DateCell) : toDatetime (toDatetime c) = toDatetime c := by
  cases c <;> rfl

lemma normalizeDates_idem (df : DataFrame) :
    normalizeDates (normalizeDates df) = normalizeDates df := by
  unfold normalizeDates
  simp only [List.map_map]
  congr 1
  apply List.map_congr_left
  intro r _
  simp [Function.comp, toDatetime_idem]

lemma sum_map_filter_add_not (p : α → Bool) (f : α → ℚ) (l : List α) :
    ((l.filter p).map f).sum + ((l.filter (fun a => !(p a))).map f).sum
      = (l.map f).sum := by
  induction l with
  | nil => simp
  | cons a t ih =>
      cases h : p a with
      | true =>
          simp only [List.filter_cons, h, Bool.not_true, if_pos, if_neg,
            Bool.false_eq_true, not_false_eq_true, List.map_cons, List.sum_cons]
          linarith [ih]
      | false =>
          simp only [List.filter_cons, h, Bool.not_false, if_pos, if_neg,
            Bool.false_eq_true, not_false_eq_true, List.map_cons, List.sum_cons]
          linarith [ih]

lemma filter_key_comm {α κ : Type} [BEq κ] [LawfulBEq κ] (key : α → κ) (k k' : κ)
    (hne : k' ≠ k) (l : List α) :
    (l.filter (fun a => !(key a == k))).filter (fun a => key a == k')
      = l.filter (fun a => key a == k') := by
  induction l with
  | nil => rfl
  | cons a t ih =>
      by_cases h : key a = k'
      · have hk : (key a == k) = false := by simp [h, hne]
        simp [List.filter_cons, h, hk, hne, ih]
      · have h2 : (key a == k') = false := by simp [h]
        by_cases hk : key a = k
        · simp [List.filter_cons, hk, h2, Ne.symm hne, ih]
        · have hk2 : (key a == k) = false := by simp [hk]
          simp [List.filter_cons, hk2, h2, ih]

lemma sum_over_groups {α κ : Type} [BEq κ] [LawfulBEq κ] (key : α → κ) (f : α → ℚ) :
    ∀ (ks : List κ) (l : List α), ks.Nodup → (∀ a ∈ l, key a ∈ ks) →
      (ks.map (fun k => ((l.filter (fun a => key a == k)).map f).sum)).sum
        = (l.map f).sum := by
  intro ks
  induction ks with
  | nil =>
      intro l _ hcov
      have hl : l = [] := List.eq_nil_iff_forall_not_mem.mpr (fun a ha => by
        simpa using hcov a ha)
      simp [hl]
  | cons k ks ih =>
      intro l hnd hcov
      have hnd2 : ks.Nodup := hnd.of_cons
      have hknotin : k ∉ ks := (List.nodup_cons.mp hnd).1
      have hmapeq : ks.map (fun k2 => ((l.filter (fun a => key a == k2)).map f).sum)
          = ks.map (fun k2 =>
              (((l.filter (fun a => !(key a == k))).filter
                (fun a => key a == k2)).map f).sum) := by
        apply List.map_congr_left
        intro k2 hk2
        have hne : k2 ≠ k := fun he => hknotin (he ▸ hk2)
        rw [filter_key_comm key k k2 hne]
      have hcov2 : ∀ a ∈ l.filter (fun a => !(key a == k)), key a ∈ ks := by
        intro a ha
        rcases List.mem_filter.mp ha with ⟨hal, hb⟩
        rcases List.mem_cons.mp (hcov a hal) with h | h
        · exfalso; simp [h] at hb
        · exact h
      have ihb := ih (l.filter (fun a => !(key a == k))) hnd2 hcov2
      calc ((k :: ks).map (fun k2 => ((l.filter (fun a => key a == k2)).map f).sum)).sum
          = ((l.filter (fun a => key a == k)).map f).sum
            + (ks.map (fun k2 => ((l.filter (fun a => key a == k2)).map f).sum)).sum := by
            simp
        _ = ((l.filter (fun a => key a == k)).map f).sum
            + (((l.filter (fun a => !(key a == k))).map f).sum) := by
            rw [hmapeq, ihb]
        _ = (l.map f).sum := sum_map_filter_add_not (fun a => key a == k) f l

lemma filter_month_kind_drop_income (l : List Row) (m : ℕ) :
    ((l.filter (fun r => !(r.«收支類型» == "收入"))).filter
        (fun r => monthNum r.«日期» == m)).filter (fun r => r.«收支類型» == "支出")
      = (l.filter (fun r => monthNum r.«日期» == m)).filter
          (fun r => r.«收支類型» == "支出") := by
  simp only [List.filter_filter]
  apply List.filter_congr
  intro a _
  by_cases hq : a.«收支類型» = "支出"
  · have hN : (!(a.«收支類型» == "收入")) = true := by rw [hq]; decide
    simp [hN]
  · have hq2 : (a.«收支類型» == "支出") = false := by simpa using hq
    simp [hq2]

lemma expenseRows_drop_income (df : DataFrame) (m : ℕ) :
    expenseRows ⟨df.columns, df.rows.filter (fun r => !(r.«收支類型» == "收入"))⟩ m
      = expenseRows df m :=
  filter_month_kind_drop_income df.rows m

lemma default_idx_shou (member : String) :
    default_idx "支出" member
      = if (["曦晴", "曦朗"] : List String).contains member then 2 else 0 := by
  cases hc : (["曦晴", "曦朗"] : List String).contains member with
  | true =>
      simp only [default_idx]
      rw [hc]
      decide
  | false =>
      simp only [default_idx]
      rw [hc]
      decide

/-- C1: the month filter (line 122) keeps exactly the rows of the frame whose
date's month-number equals the selected month; the predicate never consults
the year, so a prior-year row of the same calendar month is counted — the
concrete frame mixes a 2024 expense (500) with a 2023 expense (200) and the
month-3 expense total is 700. -/
theorem monthRows_month_number_only (df : DataFrame) (m : ℕ) (r : Row) :
    (r ∈ monthRows df m ↔ r ∈ df.rows ∧ monthNum r.«日期» = m) ∧
    (∀ y₁ y₂ mo dd, monthNum (DateCell.dt ⟨y₁, mo, dd⟩)
        = monthNum (DateCell.dt ⟨y₂, mo, dd⟩)) ∧
    (view (load_df [exRow1, exRow2, exRow3]) 3).2.totalExpense = 700 := by
  refine ⟨?_, fun y₁ y₂ mo dd => rfl, ?_⟩
  · simp [monthRows, List.mem_filter]
  · show totalExpense (view (load_df [exRow1, exRow2, exRow3]) 3).1 3 = 700
    have h : (monthRows (view (load_df [exRow1, exRow2, exRow3]) 3).1 3).filter
        (fun r => r.«收支類型» == "支出")
        = [⟨.dt ⟨2024, 3, 5⟩, "Kam", "支出", "家庭支出", "電費", 500, ""⟩,
           ⟨.dt ⟨2023, 3, 2⟩, "Kam", "支出", "個人支出", "購物", 200, ""⟩] := by decide
    rw [totalExpense, h]
    norm_num

/-- C2: for every frame and month, the report's totalIncome is the sum of
金額 over the filtered 收入 rows, totalExpense the sum over the filtered 支出
rows, balance = totalIncome − totalExpense (line 133), and the amounts of the
grouped breakdown (line 142) sum to totalExpense. -/
theorem report_totals_balance_grouped_sum (df : DataFrame) (m : ℕ) :
    (computeReport df m).totalIncome
        = (((monthRows df m).filter (fun r => r.«收支類型» == "收入")).map
            (fun r => r.«金額»)).sum ∧
    (computeReport df m).totalExpense
        = (((monthRows df m).filter (fun r => r.«收支類型» == "支出")).map
            (fun r => r.«金額»)).sum ∧
    (computeReport df m).balance
        = (computeReport df m).totalIncome - (computeReport df m).totalExpense ∧
    ((computeReport df m).summary.map (fun e => e.«金額»)).sum
        = (computeReport df m).totalExpense := by
  refine ⟨rfl, rfl, rfl, ?_⟩
  show ((summaryRows df m).map (fun e => e.«金額»)).sum = totalExpense df m
  rw [summaryRows, List.map_map]
  have hcomp : ((fun e : BRow => e.«金額») ∘ fun k : String × String × String =>
      (⟨k.1, k.2.1, k.2.2, groupAmt (expenseRows df m) k⟩ : BRow))
      = fun k => groupAmt (expenseRows df m) k := rfl
  rw [hcomp]
  have hcov2 : ∀ a ∈ expenseRows df m,
      gKey a ∈ breakdownKeys (expenseRows df m) := by
    intro a ha
    rw [breakdownKeys, List.mem_dedup]
    exact List.mem_map.mpr ⟨a, ha, rfl⟩
  show ((breakdownKeys (expenseRows df m)).map
      (fun k => (((expenseRows df m).filter (fun a => gKey a == k)).map
        (fun r => r.«金額»)).sum)).sum
    = ((expenseRows df m).map (fun r => r.«金額»)).sum
  exact sum_over_groups gKey (fun r => r.«金額») (breakdownKeys (expenseRows df m))
    (expenseRows df m) (List.nodup_dedup _) hcov2

/-- C3: the grouped breakdown is built only over the month's 支出 rows — a
breakdown row exists exactly for each (主類別, 細項, 成員) key appearing among
the expense rows and carries that group's summed 金額, each key appears once
(the first-seen key order of the embedding is deterministic), every
contributing row has kind 支出, and dropping all 收入 rows from the frame
leaves the breakdown unchanged. -/
theorem summary_groups_expense_only (df : DataFrame) (m : ℕ) :
    (∀ e : BRow, e ∈ (computeReport df m).summary ↔
        ((e.«主類別», e.«細項», e.«成員») ∈ (expenseRows df m).map gKey ∧
         e.«金額» = groupAmt (expenseRows df m) (e.«主類別», e.«細項», e.«成員»))) ∧
    ((computeReport df m).summary.map
        (fun e => (e.«主類別», e.«細項», e.«成員»))).Nodup ∧
    (∀ r ∈ expenseRows df m, r.«收支類型» = "支出") ∧
    (computeReport ⟨df.columns,
        df.rows.filter (fun r => !(r.«收支類型» == "收入"))⟩ m).summary
      = (computeReport df m).summary := by
  refine ⟨?_, ?_, ?_, ?_⟩
  · intro e
    show e ∈ summaryRows df m ↔ _
    rw [summaryRows]
    constructor
    · intro he
      rcases List.mem_map.mp he with ⟨k, hk, hke⟩
      rw [breakdownKeys, List.mem_dedup] at hk
      obtain ⟨a, b, c⟩ := k
      subst hke
      exact ⟨hk, rfl⟩
    · rintro ⟨hk, ha⟩
      apply List.mem_map.mpr
      refine ⟨(e.«主類別», e.«細項», e.«成員»), ?_, ?_⟩
      · rw [breakdownKeys, List.mem_dedup]
        exact hk
      · obtain ⟨p1, p2, p3, p4⟩ := e
        simp only [] at ha ⊢
        rw [ha]
  · show ((summaryRows df m).map
        (fun e => (e.«主類別», e.«細項», e.«成員»))).Nodup
    rw [summaryRows, List.map_map]
    have hcomp : ((fun e : BRow => (e.«主類別», e.«細項», e.«成員»)) ∘
        fun k : String × String × String =>
          (⟨k.1, k.2.1, k.2.2, groupAmt (expenseRows df m) k⟩ : BRow))
        = fun k : String × String × String => k := by
      funext k
      obtain ⟨a, b, c⟩ := k
      rfl
    rw [hcomp, List.map_id']
    exact List.nodup_dedup _
  · intro r hr
    have := (List.mem_filter.mp hr).2
    simpa using this
  · show summaryRows _ m = summaryRows df m
    rw [summaryRows, summaryRows, expenseRows_drop_income]

/-- C4: the spec-modelled `makeTransaction` checks its rules in the fixed
order with the first failure winning — member, then kind, then taxonomy
triple, then amount — amount −0.01 fails with InvalidAmount, amount 0
succeeds, and on any validation failure `submit` returns the store rows
unchanged: an invalid entry is never appended. -/
theorem makeTransaction_checks_in_order (d : Date)
    (member kind mainCat subCat : String) (amount : ℚ) (note : String) :
    (makeTransaction d member kind mainCat subCat amount note
        = .error .InvalidMember ↔ member ∉ MEMBERS) ∧
    (makeTransaction d member kind mainCat subCat amount note
        = .error .InvalidKind
      ↔ member ∈ MEMBERS ∧ kind ∉ (["收入", "支出"] : List String)) ∧
    (makeTransaction d member kind mainCat subCat amount note
        = .error .InvalidCategory
      ↔ member ∈ MEMBERS ∧ kind ∈ (["收入", "支出"] : List String) ∧
          ¬ isValid kind mainCat subCat = true) ∧
    (makeTransaction d member kind mainCat subCat amount note
        = .error .InvalidAmount
      ↔ member ∈ MEMBERS ∧ kind ∈ (["收入", "支出"] : List String) ∧
          isValid kind mainCat subCat = true ∧ amount < 0) ∧
    (makeTransaction d "Connie" "支出" "家庭支出" "電費" (-(1/100)) ""
        = .error .InvalidAmount) ∧
    ((makeTransaction d "Connie" "支出" "家庭支出" "電費" 0 "").isOk = true) ∧
    (∀ (rows : List Row) (e : ValidationError),
        makeTransaction d member kind mainCat subCat amount note = .error e →
        submit rows d member kind mainCat subCat amount note = (rows, .error e)) := by
  refine ⟨?_, ?_, ?_, ?_, ?_, ?_, ?_⟩
  · rw [makeTransaction]
    split_ifs with h1 h2 h3 h4 <;> simp_all
  · rw [makeTransaction]
    split_ifs with h1 h2 h3 h4 <;> simp_all
  · rw [makeTransaction]
    split_ifs with h1 h2 h3 h4 <;> simp_all
  · rw [makeTransaction]
    split_ifs with h1 h2 h3 h4
    · have h5 : ¬ amount < 0 := not_lt.mpr h4
      simp [h1, h2, h3, h5]
    · have h5 : amount < 0 := not_le.mp h4
      simp [h1, h2, h3, h5]
    · simp [h1, h2, h3]
    · simp [h1, h2]
    · simp [h1]
  · rw [makeTransaction, if_pos (show "Connie" ∈ MEMBERS by decide),
      if_pos (show "支出" ∈ (["收入", "支出"] : List String) by decide),
      if_pos (show isValid "支出" "家庭支出" "電費" = true by decide),
      if_neg (show ¬ ((0 : ℚ) ≤ -(1/100)) by norm_num)]
  · rw [makeTransaction, if_pos (show "Connie" ∈ MEMBERS by decide),
      if_pos (show "支出" ∈ (["收入", "支出"] : List String) by decide),
      if_pos (show isValid "支出" "家庭支出" "電費" = true by decide),
      if_pos (show (0 : ℚ) ≤ 0 by norm_num)]
    rfl
  · intro rows e h
    rw [submit, h]

/-- C4 witness: a concrete invalid submission (unknown member) is rejected
with InvalidMember and leaves the store rows unchanged. -/
theorem makeTransaction_checks_in_order_witness :
    submit [] ⟨2024, 1, 1⟩ "Nobody" "支出" "家庭支出" "電費" 1 ""
      = ([], .error .InvalidMember) :=
  (makeTransaction_checks_in_order ⟨2024, 1, 1⟩ "Nobody" "支出" "家庭支出"
    "電費" 1 "").2.2.2.2.2.2 [] .InvalidMember rfl

/-- C5 counterexample: a stored row whose 成員 is "Unknown" (outside the
member set) is NOT excluded on load — it is among the loaded rows, it is
counted in the month's expense total, and it appears in the grouped
breakdown of the month-3 report. -/
theorem load_keeps_unknown_member_cex :
    badRow ∈ (load_df [badRow]).rows ∧
    (view (load_df [badRow]) 3).2.totalExpense = 100 ∧
    ((view (load_df [badRow]) 3).2.summary.map (fun e => e.«成員»))
      = ["Unknown"] := by
  refine ⟨by decide, ?_, by decide⟩
  show totalExpense (view (load_df [badRow]) 3).1 3 = 100
  have h : (monthRows (view (load_df [badRow]) 3).1 3).filter
      (fun r => r.«收支類型» == "支出")
      = [⟨.dt ⟨2024, 3, 1⟩, "Unknown", "支出", "家庭支出", "電費", 100, ""⟩] := by
    decide
  rw [totalExpense, h]
  norm_num

/-- C5 amended: the load path applies no validation — every raw row is kept
in the loaded frame (so one corrupt row never blocks the others and no error
is raised), and the frame always has the fixed 7-column shape. -/
theorem load_df_keeps_all_rows (data : List Row) :
    (load_df data).rows = data ∧ (load_df data).columns = COLUMNS7 := by
  cases data with
  | nil => exact ⟨rfl, rfl⟩
  | cons a t => exact ⟨rfl, rfl⟩

/-- C6: the default main-category index is the index of 小朋友支出 exactly
when the kind is 支出, the member is one of the two child members and
小朋友支出 is among the kind's main-categories (its index is 2 and position 2
indeed holds 小朋友支出); in every other case — in particular for kind 收入
and any member — it is 0. -/
theorem default_idx_children_rule :
    (∀ kind member : String,
        default_idx kind member =
          if kind = "支出" ∧ member ∈ (["曦晴", "曦朗"] : List String) ∧
              "小朋友支出" ∈ mainCategories kind
          then (mainCategories kind).indexOf "小朋友支出" else 0) ∧
    ((mainCategories "支出").indexOf "小朋友支出" = 2) ∧
    ((mainCategories "支出").get? 2 = some "小朋友支出") ∧
    (∀ member : String, default_idx "收入" member = 0) := by
  refine ⟨?_, by decide, by decide, fun member => rfl⟩
  intro kind member
  by_cases h1 : kind = "支出"
  · subst h1
    rw [default_idx_shou]
    by_cases h2 : member ∈ (["曦晴", "曦朗"] : List String)
    · rw [if_pos (by simpa using h2), if_pos ⟨rfl, h2, by decide⟩]
      decide
    · rw [if_neg (by simpa using h2), if_neg (fun hcon => h2 hcon.2.1)]
  · rw [if_neg (fun hcon => h1 hcon.1)]
    have hk : (kind == "支出") = false := by simpa using h1
    simp only [default_idx]
    rw [hk]
    rfl

/-- C7: the source's CATEGORIES equals, label for label and in the same
order, the taxonomy table of the design's §4.1 once each English label of the
table is rendered into the source's label; being a constant definition it
cannot be mutated. -/
theorem taxonomy_matches_spec : specTaxonomyRendered = CATEGORIES := by decide

/-- C8: a store with no data loads as the empty frame with the fixed
7-column shape, and a month with no matching rows yields the all-zero report
with an empty breakdown — no error in either case. -/
theorem empty_store_empty_month :
    (load_df [] = ⟨COLUMNS7, []⟩) ∧
    (∀ (df : DataFrame) (m : ℕ), monthRows df m = [] →
      computeReport df m = ⟨m, 0, 0, 0, []⟩) := by
  refine ⟨rfl, ?_⟩
  intro df m h
  unfold computeReport totalIncome totalExpense summaryRows expenseRows breakdownKeys
  rw [h]
  simp

/-- C8 witness: the frame loaded from an empty store has no month-1 rows and
its month-1 report is the all-zero report. -/
theorem empty_store_empty_month_witness :
    monthRows (load_df []) 1 = [] ∧
    computeReport (load_df []) 1 = ⟨1, 0, 0, 0, []⟩ :=
  ⟨rfl, empty_store_empty_month.2 (load_df []) 1 rfl⟩

/-- C9 counterexample: the report view mutates the frame it is given — on a
concrete frame whose 日期 column holds raw strings, the frame after the view
differs from the frame before it (the column now holds datetimes). -/
theorem view_mutates_log_cex :
    (view (load_df [exRow1]) 3).1 ≠ load_df [exRow1] := by decide

/-- C9 amended: recomputing the report on the frame as the first view left it
yields the identical report, and from the second view on the frame is fixed —
the in-place date conversion is idempotent, but it does change the frame on
the first view. -/
theorem view_report_idempotent (df : DataFrame) (m : ℕ) :
    (view df m).2 = (view (view df m).1 m).2 ∧
    (view (view df m).1 m).1 = (view df m).1 := by
  constructor
  · show computeReport (normalizeDates df) m
        = computeReport (normalizeDates (normalizeDates df)) m
    rw [normalizeDates_idem]
  · show normalizeDates (normalizeDates df) = normalizeDates df
    exact normalizeDates_idem df

/-- C10: for both kinds the selection widgets offer, the default index is
within the bounds of the kind's main-category sequence. -/
theorem default_idx_lt_length (kind member : String)
    (h : kind ∈ (["收入", "支出"] : List String)) :
    default_idx kind member < (mainCategories kind).length := by
  have h2 : kind = "收入" ∨ kind = "支出" := by simpa using h
  rcases h2 with h2 | h2 <;> subst h2
  · exact (show (0 : ℕ) < 2 by decide)
  · rw [default_idx_shou]
    cases hc : (["曦晴", "曦朗"] : List String).contains member with
    | false => decide
    | true => decide

/-- C10 witness: the 收入 kind with a concrete member stays in bounds. -/
theorem default_idx_lt_length_witness :
    "收入" ∈ (["收入", "支出"] : List String) ∧
    default_idx "收入" "Connie" < (mainCategories "收入").length :=
  ⟨by decide, default_idx_lt_length "收入" "Connie" (by decide)⟩
